import Mathlib

/-! Verification of the proposal draft generation engine of
auto_proposal_drafter.  The definitions below are a shallow embedding of
src/auto_proposal_drafter: the pydantic models become structures, python
floats become exact rationals, python dates become integers counting days
(only differences of dates are ever used), dict lookups become
association-list lookups returning Option, and every operation that can
raise in python returns Option.  The wall-clock call date.today made
inside the risk derivation is modelled as an explicit wallToday argument,
distinct from the today stored in the generation context. -/

/-- ASCII lowercasing of a string, mirroring str.lower on the alphabets used
by the engine (markers are ASCII or katakana, and katakana is unaffected). -/
def lowerStr (s : String) : String := String.mk (s.data.map Char.toLower)

/-- ASCII uppercasing of a string, mirroring str.upper likewise. -/
def upperStr (s : String) : String := String.mk (s.data.map Char.toUpper)

/-- Whether the first list is a leading block of the second, char by char. -/
def strHasPre (sub s : List Char) : Bool :=
  match sub, s with
  | [], _ => true
  | _ :: _, [] => false
  | a :: as, b :: bs => a == b && strHasPre as bs

/-- Whether sub occurs contiguously anywhere inside s. -/
def strHasSub (sub s : List Char) : Bool :=
  match s with
  | [] => sub.isEmpty
  | _ :: bs => strHasPre sub s || strHasSub sub bs

/-- Python sub in s substring test on strings. -/
def hasSub (s sub : String) : Bool := strHasSub sub.data s.data

/-- Python str.title on the identifiers used here: uppercase an ASCII letter
that starts an alphabetic run, lowercase the following letters. -/
def titleChars : Bool → List Char → List Char
  | _, [] => []
  | prevAlpha, c :: cs =>
    if c.isAlpha then
      (if prevAlpha then c.toLower else c.toUpper) :: titleChars true cs
    else
      c :: titleChars false cs

/-- Python str.title as used on page identifiers. -/
def titleStr (s : String) : String := String.mk (titleChars false s.data)

/-- Concatenation of a list of strings, mirroring the empty-separator join. -/
def strConcat (l : List String) : String := l.foldl (fun a b => a ++ b) ""

/-- Round a rational to the nearest integer, ties to even, mirroring the
rounding used by python's round and number formatting. -/
def roundHalfEven (q : ℚ) : Int :=
  let f := ⌊q⌋
  let r := q - f
  if r < 1/2 then f
  else if r > 1/2 then f + 1
  else if f % 2 = 0 then f else f + 1

/-- Python round(x, 1). -/
def round1 (q : ℚ) : ℚ := (roundHalfEven (q * 10) : ℚ) / 10

/-- Python round(x, 2). -/
def round2 (q : ℚ) : ℚ := (roundHalfEven (q * 100) : ℚ) / 100

/-- Python int(x): truncation toward zero. -/
def pyInt (q : ℚ) : Int := if q < 0 then -⌊-q⌋ else ⌊q⌋

/-- Insert thousands separators into a digit list given least significant
digit first. -/
def groupRev : List Char → List Char
  | a :: b :: c :: d :: rest => a :: b :: c :: ',' :: groupRev (d :: rest)
  | l => l

/-- Python format spec , applied to a natural number. -/
def formatCommaNat (n : Nat) : String :=
  String.mk (groupRev (Nat.toDigits 10 n).reverse).reverse

/-- Python format spec , applied to an integer. -/
def formatCommaInt : Int → String
  | .ofNat n => formatCommaNat n
  | .negSucc m => "-" ++ formatCommaNat (m + 1)

/-- Python format spec .2f applied to a rational. -/
def format2f (q : ℚ) : String :=
  let n := roundHalfEven (q * 100)
  let a := n.natAbs
  let fracStr := (if a % 100 < 10 then "0" else "") ++ Nat.repr (a % 100)
  (if n < 0 then "-" else "") ++ Nat.repr (a / 100) ++ "." ++ fracStr

/-! Data model, from models/opportunity.py, models/structure.py,
models/estimate.py and models/wire.py. -/

/-- Tri-state asset availability flags (models/opportunity.py). -/
structure OpportunityAssets where
  copy : Option Bool := none
  photo : Option Bool := none
  logo : Option Bool := none
deriving DecidableEq

/-- The input opportunity record (models/opportunity.py); dates are modelled
as day numbers, so deadline is an Option Int. -/
structure Opportunity where
  id : String
  company : String
  title : String
  goal : String
  kpi : List String := []
  deadline : Option Int := none
  budget_band : Option String := none
  persona : Option String := none
  must_have : List String := []
  references : List String := []
  constraints : List String := []
  assets : OpportunityAssets := {}
  notes : Option String := none
  created_by : Option String := none
  source : String := "unknown"
deriving DecidableEq

/-- A section reference, possibly with resolved copy (models/structure.py). -/
structure SectionSpec where
  kind : String
  variant : String
  copy : Option (List String) := none
  notes : Option (List String) := none
deriving DecidableEq

/-- A page of the site map (models/structure.py). -/
structure SitePageSpec where
  page_id : String
  type : String := "LP"
  goal : Option String := none
  sections : List SectionSpec := []
  notes : Option (List String) := none
deriving DecidableEq

/-- The structure draft (models/structure.py). -/
structure StructureDraft where
  site_map : List SitePageSpec
  flows : List String
  uncertains : List String := []
  risks : List String := []
deriving DecidableEq

/-- Project identity of a wireframe (models/wire.py). -/
structure WireProject where
  id : String
  title : String
deriving DecidableEq

/-- A wireframe section with resolved placeholders (models/wire.py). -/
structure WireSection where
  kind : String
  variant : String
  placeholders : Option (List (String × String)) := none
deriving DecidableEq

/-- A wireframe page (models/wire.py). -/
structure WirePage where
  page_id : String
  sections : List WireSection := []
  notes : Option (List String) := none
deriving DecidableEq

/-- The wireframe draft (models/wire.py). -/
structure WireDraft where
  project : WireProject
  frames : List String := ["Desktop", "Tablet", "Mobile"]
  pages : List WirePage
deriving DecidableEq

/-- A line item of the estimate (models/estimate.py). -/
structure EstimateLineItem where
  item : String
  qty : ℚ := 1
  hours : ℚ
  rate : ℚ
  role : String
  notes : Option String := none
deriving DecidableEq

/-- The derived cost property of a line item (models/estimate.py). -/
def EstimateLineItem.cost (i : EstimateLineItem) : ℚ :=
  round2 (i.qty * i.hours * i.rate)

/-- A triggered coefficient (models/estimate.py). -/
structure EstimateCoefficient where
  name : String
  multiplier : ℚ
  reason : Option String := none
deriving DecidableEq

/-- The estimate draft (models/estimate.py). -/
structure EstimateDraft where
  line_items : List EstimateLineItem
  coefficients : List EstimateCoefficient := []
  assumptions : List String := []
  currency : String := "JPY"
deriving DecidableEq

/-! Catalog reference data, from dictionaries.py. -/

/-- A catalog section definition (dictionaries.py). -/
structure SectionDefinition where
  key : String
  label : String
  kind : String
  variant : String
  design_hours : ℚ
  copy_hints : List String
  placeholders : List (String × String)
deriving DecidableEq

/-- The built-in section catalog DEFAULT_SECTIONS (dictionaries.py), as an
association list keyed by kind/variant. -/
def DEFAULT_SECTIONS : List (String × SectionDefinition) := [
  ("Hero/Center",
   { key := "Hero/Center", label := "Hero", kind := "Hero", variant := "Center",
     design_hours := 1.5,
     copy_hints := ["顧客課題と解決価値を1行で", "主要ベネフィットを箇条書き", "CTAリンクの誘導文"],
     placeholders := [("headline", "{company}が{persona_goal}を加速"), ("sub", "{goal_phrase}")] }),
  ("SocialProof/LogosStrip",
   { key := "SocialProof/LogosStrip", label := "Social Proof", kind := "SocialProof",
     variant := "LogosStrip", design_hours := 1.0,
     copy_hints := ["代表的な導入企業を3〜5社紹介"],
     placeholders := [("headline", "導入企業"), ("logos", "A社 / B社 / C社")] }),
  ("Features/3ColsIcons",
   { key := "Features/3ColsIcons", label := "Features", kind := "Features",
     variant := "3ColsIcons", design_hours := 1.4,
     copy_hints := ["ベネフィット3つを簡潔に"],
     placeholders := [("col1", "特徴1"), ("col2", "特徴2"), ("col3", "特徴3")] }),
  ("CaseStudies/Cards3",
   { key := "CaseStudies/Cards3", label := "Case Studies", kind := "CaseStudies",
     variant := "Cards3", design_hours := 1.3,
     copy_hints := ["代表的な成功事例を要約"],
     placeholders := [("title", "導入事例")] }),
  ("Offer/PricingSimple",
   { key := "Offer/PricingSimple", label := "Offer", kind := "Offer",
     variant := "PricingSimple", design_hours := 1.2,
     copy_hints := ["基本プランと差別化ポイント"],
     placeholders := [("plan", "スタンダードプラン")] }),
  ("FAQ/Accordion",
   { key := "FAQ/Accordion", label := "FAQ", kind := "FAQ", variant := "Accordion",
     design_hours := 1.0,
     copy_hints := ["よくある質問と回答を3〜5件"],
     placeholders := [("q1", "質問1"), ("a1", "回答1")] }),
  ("CTA/PrimaryBottom",
   { key := "CTA/PrimaryBottom", label := "CTA", kind := "CTA", variant := "PrimaryBottom",
     design_hours := 0.6,
     copy_hints := ["フォーム送信を促す一文"],
     placeholders := [("cta", "資料請求はこちら")] }),
  ("Form/ContactBasic",
   { key := "Form/ContactBasic", label := "Form", kind := "Form", variant := "ContactBasic",
     design_hours := 1.2,
     copy_hints := ["入力項目6つ程度に抑える"],
     placeholders := [("submit", "送信")] }),
  ("About/Split",
   { key := "About/Split", label := "About", kind := "About", variant := "Split",
     design_hours := 1.1,
     copy_hints := ["企業概要と差別化を簡潔に"],
     placeholders := [("headline", "会社概要")] }),
  ("Services/Grid",
   { key := "Services/Grid", label := "Services", kind := "Services", variant := "Grid",
     design_hours := 1.3,
     copy_hints := ["提供サービスカテゴリを整理"],
     placeholders := [("headline", "提供サービス")] })]

/-- The built-in page presets DEFAULT_PAGE_PRESETS (dictionaries.py). -/
def DEFAULT_PAGE_PRESETS : List (String × List SitePageSpec) := [
  ("LP",
   [{ page_id := "top", type := "LP", goal := some "リード獲得",
      sections := [
        { kind := "Hero", variant := "Center" },
        { kind := "SocialProof", variant := "LogosStrip" },
        { kind := "Features", variant := "3ColsIcons" },
        { kind := "CaseStudies", variant := "Cards3" },
        { kind := "Offer", variant := "PricingSimple" },
        { kind := "FAQ", variant := "Accordion" },
        { kind := "CTA", variant := "PrimaryBottom" },
        { kind := "Form", variant := "ContactBasic" }] }]),
  ("Corporate",
   [{ page_id := "home", type := "Corporate", goal := some "企業理解",
      sections := [
        { kind := "Hero", variant := "Center" },
        { kind := "About", variant := "Split" },
        { kind := "Services", variant := "Grid" },
        { kind := "CaseStudies", variant := "Cards3" },
        { kind := "FAQ", variant := "Accordion" },
        { kind := "CTA", variant := "PrimaryBottom" },
        { kind := "Form", variant := "ContactBasic" }] }])]

/-- The built-in hourly rate table DEFAULT_RATES (dictionaries.py). -/
def DEFAULT_RATES : List (String × ℚ) :=
  [("IA", 12000.0), ("Design", 12000.0), ("PM", 12000.0)]

/-- The built-in default assumptions DEFAULT_ASSUMPTIONS (dictionaries.py). -/
def DEFAULT_ASSUMPTIONS : List String :=
  ["写真素材は支給を想定", "CMS構築は別途見積対象", "ファーストビュー文言はクライアント確定を前提"]

/-- The request-scoped generation context (dictionaries.py); the structure
field of the python class is named structureRef here because structure is a
Lean keyword. -/
structure GenerationContext where
  today : Int
  structureRef : Option StructureDraft := none

/-- A coefficient rule (dictionaries.py). -/
structure CoefficientRule where
  name : String
  multiplier : ℚ
  reason : String
  predicate : Opportunity → GenerationContext → Bool

/-- CoefficientRule.evaluate (dictionaries.py). -/
def CoefficientRule.evaluate (r : CoefficientRule) (opp : Opportunity)
    (ctx : GenerationContext) : Option EstimateCoefficient :=
  if r.predicate opp ctx then
    some { name := r.name, multiplier := r.multiplier, reason := some r.reason }
  else none

/-- The built-in coefficient rules DEFAULT_COEFFICIENT_RULES
(dictionaries.py); the short-deadline predicate reads the today of the
passed context, and the python truthiness guard on notes is the explicit
empty-string check. -/
def DEFAULT_COEFFICIENT_RULES : List CoefficientRule := [
  { name := "短納期", multiplier := 1.15, reason := "納期が45日未満",
    predicate := fun opp ctx =>
      match opp.deadline with
      | some d => decide (d - ctx.today < 45)
      | none => false },
  { name := "素材未提供（コピー）", multiplier := 1.2, reason := "コピー素材が未支給",
    predicate := fun opp _ => decide (opp.assets.copy = some false) },
  { name := "CMS要件含む", multiplier := 1.1, reason := "メモにCMS化要望",
    predicate := fun opp _ =>
      match opp.notes with
      | some n => decide (n ≠ "") && hasSub (upperStr n) "CMS"
      | none => false }]

/-- The generator with its injected catalog (generator.py, constructor). -/
structure ProposalGenerator where
  page_presets : List (String × List SitePageSpec)
  sections : List (String × SectionDefinition)
  rates : List (String × ℚ)
  assumptions : List String
  coefficient_rules : List CoefficientRule

/-- ProposalGenerator() built with all the default catalog arguments. -/
def DEFAULT_GENERATOR : ProposalGenerator :=
  { page_presets := DEFAULT_PAGE_PRESETS, sections := DEFAULT_SECTIONS,
    rates := DEFAULT_RATES, assumptions := DEFAULT_ASSUMPTIONS,
    coefficient_rules := DEFAULT_COEFFICIENT_RULES }

/-! The generation pipeline, from generator.py. -/

/-- The kind/variant key used for catalog lookups (generator.py). -/
def sectionKey (sec : SectionSpec) : String := sec.kind ++ "/" ++ sec.variant

/-- ProposalGenerator._infer_site_type (generator.py). -/
def inferSiteType (opp : Opportunity) : String :=
  let title := lowerStr opp.title
  let goal := lowerStr opp.goal
  if hasSub title "lp" || hasSub opp.title "ランディング" then "LP"
  else if hasSub goal "リード" || hasSub goal "lead" then "LP"
  else if hasSub goal "採用" then "Corporate"
  else "LP"

/-- ProposalGenerator._goal_phrase (generator.py); the python or-default on
the goal string is the explicit empty-string check. -/
def goalPhrase (opp : Opportunity) : String :=
  let goal := if opp.goal = "" then "成果" else opp.goal
  if hasSub goal "リード" then "B2B向けのリード獲得"
  else if hasSub goal "採用" then "採用強化"
  else if hasSub goal "ブランド" then "ブランド想起向上"
  else goal

/-- ProposalGenerator._build_section_copy (generator.py): the per-kind copy
strategies, dispatching on the definition kind. -/
def buildSectionCopy (opp : Opportunity) (defn : SectionDefinition) : List String :=
  let gp := goalPhrase opp
  let persona :=
    match opp.persona with
    | some p => if p = "" then "想定顧客" else p
    | none => "想定顧客"
  let goal := if opp.goal = "" then "成果" else opp.goal
  if defn.kind = "Hero" then
    [opp.company ++ "が" ++ gp ++ "を支援",
     persona ++ "の課題を" ++ goal ++ "視点で解決",
     "まずは資料請求・お問い合わせで詳細をご確認ください"]
  else if defn.kind = "SocialProof" then
    let refs := if opp.references = [] then "業界各社"
      else String.intercalate ", " (opp.references.take 3)
    [refs ++ "などで導入実績", "安心してご相談いただけます"]
  else if defn.kind = "Features" then
    let musts :=
      let m := opp.must_have.take 3
      if m = [] then ["高いCVR", "直感的な導線", "運用のしやすさ"] else m
    musts.enum.map (fun p => "特徴" ++ Nat.repr (p.1 + 1) ++ ": " ++ p.2)
  else if defn.kind = "CaseStudies" then
    ["対象業界での成功事例を掲載", "導入背景と成果を数値で提示"]
  else if defn.kind = "Offer" then
    let budget :=
      match opp.budget_band with
      | some b => if b = "" then "要相談" else b
      | none => "要相談"
    ["スピード重視の標準パッケージ", "概算費用帯: " ++ budget]
  else if defn.kind = "FAQ" then
    ["導入スケジュールや体制のFAQを整備", "セキュリティ・保守に関する質問も想定"]
  else if defn.kind = "CTA" then
    ["お気軽に資料請求/打ち合わせをご依頼ください"]
  else if defn.kind = "Form" then
    ["氏名・会社名・連絡先・相談内容を想定", "6項目以内で離脱を抑制"]
  else if defn.kind = "About" then
    [opp.company ++ "の事業概要とミッション", "沿革・主要メンバーの紹介"]
  else if defn.kind = "Services" then
    ["提供サービスカテゴリを分かりやすく整理", "オプション対応範囲も記載"]
  else defn.copy_hints

/-- The per-section body of ProposalGenerator._build_structure
(generator.py): resolve a section against the catalog, or pass it through
unchanged when its key has no definition. -/
def resolveSection (g : ProposalGenerator) (opp : Opportunity)
    (sec : SectionSpec) : SectionSpec :=
  match List.lookup (sectionKey sec) g.sections with
  | none => sec
  | some defn =>
    { kind := sec.kind, variant := sec.variant,
      copy := some (buildSectionCopy opp defn), notes := none }

/-- ProposalGenerator._derive_uncertains (generator.py), as the same
sequence of conditional appends. -/
def deriveUncertains (opp : Opportunity) : List String :=
  let items : List String := []
  let items := if opp.deadline = none then items ++ ["納期未確定 → ヒアリング要"] else items
  let items := if opp.assets.copy = some false then items ++ ["コピー提供タイミングの確認"] else items
  let items := if opp.assets.photo = some false then items ++ ["写真素材の調達方法"] else items
  let items := if opp.must_have = [] then items ++ ["必須機能の確定"] else items
  items

/-- ProposalGenerator._derive_risks (generator.py).  The schedule-pressure
condition calls date.today() directly in the source, so it reads the
wall-clock day wallToday, not the generation context. -/
def deriveRisks (opp : Opportunity) (wallToday : Int) : List String :=
  let risks : List String := []
  let risks := if opp.assets.copy = some false then risks ++ ["コピー未提供に伴う制作遅延"] else risks
  let risks :=
    if (match opp.deadline with
        | some d => decide (d - wallToday < 45)
        | none => false) then risks ++ ["短納期でのスケジュール逼迫"] else risks
  let risks := if hasSub (strConcat opp.constraints) "ブランドカラー" then risks ++ ["ブランドガイドライン厳守によるリワーク"] else risks
  risks

/-- ProposalGenerator._derive_flows (generator.py). -/
def deriveFlows (pages : List SitePageSpec) : List String :=
  let flows := (pages.map (fun page =>
    let cta_kinds := (page.sections.map (fun sec => sec.kind)).filter
      (fun k => k = "CTA" || k = "Form")
    (if cta_kinds.contains "Form" then [titleStr page.page_id ++ "→Form"] else []) ++
    (if cta_kinds.contains "CTA" then [titleStr page.page_id ++ "→CTA"] else []))).flatten
  if flows = [] then ["Top→Form"] else flows

/-- ProposalGenerator._build_structure (generator.py); the keyed preset
access in the fallback branch raises on a missing LP preset, hence Option. -/
def buildStructure (g : ProposalGenerator) (opp : Opportunity)
    (site_type : String) (wallToday : Int) : Option StructureDraft :=
  let pages0 := (List.lookup site_type g.page_presets).getD []
  let pagesOpt := if pages0 = [] then List.lookup "LP" g.page_presets else some pages0
  match pagesOpt with
  | none => none
  | some pages =>
    let resolved := pages.map (fun preset =>
      { page_id := preset.page_id, type := preset.type, goal := preset.goal,
        sections := preset.sections.map (resolveSection g opp),
        notes := preset.notes })
    some { site_map := resolved, flows := deriveFlows resolved,
           uncertains := deriveUncertains opp,
           risks := deriveRisks opp wallToday }

/-- All-or-nothing map over a list, mirroring a python loop whose body can
raise: the first failing element fails the whole computation. -/
def mapOpt (f : α → Option β) : List α → Option (List β)
  | [] => some []
  | a :: as =>
    match f a, mapOpt f as with
    | some b, some bs => some (b :: bs)
    | _, _ => none

/-- The opening brace character. -/
def lbrace : Char := Char.ofNat 123

/-- The closing brace character. -/
def rbrace : Char := Char.ofNat 125

/-- Fuel-bounded core of python str.format for the three keyword arguments
the wireframe builder passes; an unknown key or an unclosed brace raises in
python, hence none.  Brace escapes do not occur in the catalog templates and
are not modelled.  The fuel only bounds recursion depth: each step consumes
at least one character, so template length is always enough fuel. -/
def fmtAux (c pg gp : String) : Nat → List Char → Option (List Char)
  | _, [] => some []
  | 0, _ :: _ => none
  | fuel + 1, ch :: rest =>
    if ch = lbrace then
      let key := rest.takeWhile (fun d => !(d = rbrace))
      let rest2 := rest.dropWhile (fun d => !(d = rbrace))
      match rest2 with
      | [] => none
      | _ :: tail =>
        match (if key = "company".data then some c
               else if key = "persona_goal".data then some pg
               else if key = "goal_phrase".data then some gp
               else none) with
        | none => none
        | some v =>
          match fmtAux c pg gp fuel tail with
          | none => none
          | some out => some (v.data ++ out)
    else
      match fmtAux c pg gp fuel rest with
      | none => none
      | some out => some (ch :: out)

/-- Python template.format(company=..., persona_goal=..., goal_phrase=...)
as used by ProposalGenerator._build_wire. -/
def fmtTemplate (c pg gp : String) (t : String) : Option String :=
  (fmtAux c pg gp t.data.length t.data).map String.mk

/-- The placeholder dict comprehension of ProposalGenerator._build_wire
(generator.py): resolve every template of a definition against the three
substitution values the builder passes. -/
def wirePlaceholderPairs (opp : Opportunity) (defn : SectionDefinition) :
    Option (List (String × String)) :=
  mapOpt (fun (kv : String × String) =>
    (fmtTemplate opp.company (if opp.goal = "" then "成果" else opp.goal)
      (goalPhrase opp) kv.2).map (fun v => (kv.1, v)))
    defn.placeholders

/-- The per-section body of ProposalGenerator._build_wire (generator.py). -/
def wireSection (g : ProposalGenerator) (opp : Opportunity)
    (sec : SectionSpec) : Option WireSection :=
  match List.lookup (sectionKey sec) g.sections with
  | none => some { kind := sec.kind, variant := sec.variant, placeholders := none }
  | some defn =>
    match wirePlaceholderPairs opp defn with
    | none => none
    | some ph => some { kind := sec.kind, variant := sec.variant, placeholders := some ph }

/-- The per-page body of ProposalGenerator._build_wire (generator.py). -/
def wirePage (g : ProposalGenerator) (opp : Opportunity)
    (page : SitePageSpec) : Option WirePage :=
  match mapOpt (wireSection g opp) page.sections with
  | none => none
  | some ws => some { page_id := page.page_id, sections := ws, notes := page.notes }

/-- ProposalGenerator._build_wire (generator.py). -/
def buildWire (g : ProposalGenerator) (opp : Opportunity)
    (s : StructureDraft) : Option WireDraft :=
  match mapOpt (wirePage g opp) s.site_map with
  | none => none
  | some pages =>
    some { project := { id := opp.id, title := opp.company ++ " " ++ opp.title },
           frames := ["Desktop", "Tablet", "Mobile"], pages := pages }

/-- The IA hours of ProposalGenerator._build_estimate (generator.py): the
conditional expression binds inside the max call. -/
def iaHours (s : StructureDraft) : ℚ :=
  max 4.0 (match s.site_map with
           | [] => 4.0
           | p :: _ => 1.5 * (p.sections.length : ℚ))

/-- The IA line item of ProposalGenerator._build_estimate (generator.py). -/
def iaLineItem (s : StructureDraft) (rate : ℚ) : EstimateLineItem :=
  { item := "IA（サイトマップ/要件整理）", qty := 1, hours := round1 (iaHours s),
    rate := rate, role := "IA" }

/-- The PM line item of ProposalGenerator._build_estimate (generator.py);
designCount is the number of design items already appended after the IA
item. -/
def pmLineItem (designCount : Nat) (rate : ℚ) : EstimateLineItem :=
  { item := "PM（進行管理・定例）", qty := 1,
    hours := round1 (max 4.0 (((1 + designCount : Nat) : ℚ) * 0.6)),
    rate := rate, role := "PM" }

/-- The page/section pairs walked by the design-item loop of
ProposalGenerator._build_estimate (generator.py). -/
def estimatePairs (s : StructureDraft) : List (SitePageSpec × SectionSpec) :=
  (s.site_map.map (fun p => p.sections.map (fun sec => (p, sec)))).flatten

/-- One iteration of the design-item loop of
ProposalGenerator._build_estimate (generator.py): a section without a
catalog definition is skipped (inner none), a missing Design rate raises
(outer none). -/
def designItem (g : ProposalGenerator) (page : SitePageSpec)
    (sec : SectionSpec) : Option (Option EstimateLineItem) :=
  match List.lookup (sectionKey sec) g.sections with
  | none => some none
  | some defn =>
    match List.lookup "Design" g.rates with
    | none => none
    | some rate =>
      some (some { item := titleStr page.page_id ++ ": " ++ defn.label, qty := 1,
                   hours := round1 defn.design_hours, rate := rate, role := "Design" })

/-- The conditionally extended assumption list of
ProposalGenerator._build_estimate (generator.py). -/
def estimateAssumptions (g : ProposalGenerator) (opp : Opportunity) : List String :=
  let assumptions := g.assumptions
  let assumptions := if opp.assets.photo = some false then assumptions ++ ["写真素材は別途撮影/選定が必要"] else assumptions
  let assumptions := if opp.assets.copy = some false then assumptions ++ ["コピーライティングは共同で実施"] else assumptions
  assumptions

/-- ProposalGenerator._build_estimate (generator.py). -/
def buildEstimate (g : ProposalGenerator) (opp : Opportunity)
    (s : StructureDraft) (ctx : GenerationContext) : Option EstimateDraft :=
  match List.lookup "IA" g.rates with
  | none => none
  | some iaRate =>
    match mapOpt (fun ps => designItem g ps.1 ps.2) (estimatePairs s) with
    | none => none
    | some designOpts =>
      let designs := designOpts.reduceOption
      match List.lookup "PM" g.rates with
      | none => none
      | some pmRate =>
        some { line_items := iaLineItem s iaRate :: (designs ++ [pmLineItem designs.length pmRate]),
               coefficients := g.coefficient_rules.filterMap
                 (fun r => r.evaluate opp ctx),
               assumptions := estimateAssumptions g opp, currency := "JPY" }

/-- The base total of ProposalGenerator._build_summary (generator.py). -/
def baseTotal (e : EstimateDraft) : ℚ := (e.line_items.map EstimateLineItem.cost).sum

/-- The running coefficient-adjusted total of
ProposalGenerator._build_summary (generator.py): the base total multiplied
successively by each triggered multiplier, in list order. -/
def adjustedTotal (e : EstimateDraft) : ℚ :=
  e.coefficients.foldl (fun t c => t * c.multiplier) (baseTotal e)

/-- One rendered line of the coefficient breakdown of
ProposalGenerator._build_summary (generator.py); a missing reason renders as
python str(None). -/
def coeffLine (c : EstimateCoefficient) : String :=
  "- " ++ c.name ++ " ×" ++ format2f c.multiplier ++ " (" ++
    (match c.reason with | some r => r | none => "None") ++ ")"

/-- ProposalGenerator._build_summary (generator.py). -/
def buildSummary (opp : Opportunity) (s : StructureDraft)
    (e : EstimateDraft) : String :=
  let total_base := baseTotal e
  let total := adjustedTotal e
  let coeff_summary := e.coefficients.map coeffLine
  let sectionCount := (s.site_map.map (fun p => p.sections.length)).sum
  let uncStr := String.intercalate "\n" (s.uncertains.map (fun i => "- " ++ i))
  let uncertains := if uncStr = "" then "- なし" else uncStr
  let riskStr := String.intercalate "\n" (s.risks.map (fun i => "- " ++ i))
  let risks := if riskStr = "" then "- なし" else riskStr
  String.intercalate "\n" [
    "## 提案サマリ",
    "- 案件ID: " ++ opp.id,
    "- 目的: " ++ opp.goal,
    "- セクション数: " ++ Nat.repr sectionCount,
    "- 基本見積: ¥" ++ formatCommaInt (pyInt total_base),
    "- 係数適用後見積: ¥" ++ formatCommaInt (pyInt total),
    "",
    "## 係数",
    (if coeff_summary = [] then "- なし" else String.intercalate "\n" coeff_summary),
    "",
    "## 不確定事項",
    uncertains,
    "",
    "## リスク",
    risks]

/-- The output bundle (generator.py); the structure field of the python
dataclass is named structure_draft here because structure is a Lean
keyword. -/
structure DraftBundle where
  structure_draft : StructureDraft
  wire : WireDraft
  estimate : EstimateDraft
  summary_markdown : String
deriving DecidableEq

/-- ProposalGenerator.generate (generator.py).  ctxToday is the today
produced by the injected context factory; wallToday is the wall-clock day
read by date.today() while the risks are derived. -/
def generate (g : ProposalGenerator) (ctxToday wallToday : Int)
    (opp : Opportunity) : Option DraftBundle :=
  let context : GenerationContext := { today := ctxToday }
  let site_type := inferSiteType opp
  match buildStructure g opp site_type wallToday with
  | none => none
  | some s =>
    let context := { context with structureRef := some s }
    match buildWire g opp s with
    | none => none
    | some wire =>
      match buildEstimate g opp s context with
      | none => none
      | some estimate =>
        some { structure_draft := s, wire := wire, estimate := estimate,
               summary_markdown := buildSummary opp s estimate }

/-- Success predicate of fmtAux: whether formatting the template can
succeed; it depends only on the template, not on the substituted values. -/
def fmtOkCheck : Nat → List Char → Bool
  | _, [] => true
  | 0, _ :: _ => false
  | fuel + 1, ch :: rest =>
    if ch = lbrace then
      let key := rest.takeWhile (fun d => !(d = rbrace))
      let rest2 := rest.dropWhile (fun d => !(d = rbrace))
      match rest2 with
      | [] => false
      | _ :: tail =>
        (key = "company".data || key = "persona_goal".data || key = "goal_phrase".data)
          && fmtOkCheck fuel tail
    else fmtOkCheck fuel rest

/-! Concrete inputs used by the witnesses and the counterexamples. -/

/-- A minimal opportunity: only the required fields, everything else at its
model default. -/
def oppW : Opportunity := { id := "o", company := "c", title := "t", goal := "g" }

/-- A generation context with day zero as its today. -/
def ctxW : GenerationContext := { today := 0 }

/-- The structure the default generator derives for oppW. -/
def structW : StructureDraft :=
  (buildStructure DEFAULT_GENERATOR oppW (inferSiteType oppW) 0).getD
    { site_map := [], flows := [] }

/-- The estimate the default generator derives for oppW. -/
def estW : EstimateDraft :=
  (buildEstimate DEFAULT_GENERATOR oppW structW ctxW).getD { line_items := [] }

/-- An opportunity whose copy assets are explicitly unavailable and whose
notes mention CMS, so that two coefficients fire. -/
def oppC4 : Opportunity :=
  { id := "o4", company := "c", title := "t", goal := "g",
    assets := { copy := some false }, notes := some "一部CMS化" }

/-- The estimate the default generator derives for oppC4. -/
def estC4 : EstimateDraft :=
  (buildEstimate DEFAULT_GENERATOR oppC4 structW ctxW).getD { line_items := [] }

/-- An opportunity whose title contains lp only inside the word Alpine and
whose goal signals recruiting. -/
def oppAlpine : Opportunity :=
  { id := "oa", company := "c", title := "Alpine", goal := "採用を強化" }

/-- An opportunity with no landing-page marker, no lead or recruiting
keyword anywhere. -/
def oppPlain : Opportunity :=
  { id := "op", company := "c", title := "site renewal", goal := "brand refresh" }

/-- A section reference whose kind/variant key is not in the default
catalog. -/
def secUnknown : SectionSpec := { kind := "Custom", variant := "X" }

/-- A page holding only the unknown section. -/
def pageW : SitePageSpec := { page_id := "top", sections := [secUnknown] }

/-- The opportunity exercising the wall-clock slip: a deadline on day 1000,
far beyond 45 days from the injected today (day 900). -/
def oppC1 : Opportunity :=
  { id := "OPP-C1", company := "ACME", title := "site renewal",
    goal := "brand refresh", deadline := some 1000 }

/-- An opportunity with no landing-page marker whose goal signals
recruiting. -/
def oppRecruit : Opportunity :=
  { id := "or", company := "c", title := "corporate renewal", goal := "採用強化" }

/-! Helper lemmas. -/

/-- A successful association-list lookup returns a stored pair. -/
theorem lookup_mem {β : Type} {k : String} {l : List (String × β)} {v : β}
    (h : List.lookup k l = some v) : (k, v) ∈ l := by
  induction l with
  | nil => simp [List.lookup] at h
  | cons p ps ih =>
    obtain ⟨pk, pv⟩ := p
    rw [List.lookup] at h
    by_cases hk : k == pk
    · rw [hk] at h
      simp at h
      subst h
      have hke : k = pk := eq_of_beq hk
      subst hke
      exact List.mem_cons_self _ _
    · rw [Bool.not_eq_true] at hk
      rw [hk] at h
      exact List.mem_cons_of_mem _ (ih h)

/-- mapOpt succeeds when every element succeeds. -/
theorem mapOpt_isSome_of {α β : Type} (f : α → Option β) (l : List α)
    (h : ∀ a ∈ l, (f a).isSome) : (mapOpt f l).isSome := by
  induction l with
  | nil => simp [mapOpt]
  | cons a as ih =>
    have ha := h a (by simp)
    have has : (mapOpt f as).isSome := ih (fun x hx => h x (by simp [hx]))
    rw [mapOpt]
    cases hfa : f a with
    | none => rw [hfa] at ha; simp at ha
    | some b =>
      cases hm : mapOpt f as with
      | none => rw [hm] at has; simp at has
      | some bs => simp

/-- Formatting succeeds exactly when the template passes fmtOkCheck: the
substituted values never influence success. -/
theorem fmtAux_isSome (c pg gp : String) :
    ∀ (fuel : Nat) (t : List Char),
      (fmtAux c pg gp fuel t).isSome = fmtOkCheck fuel t := by
  intro fuel
  induction fuel with
  | zero =>
    intro t
    cases t <;> simp [fmtAux, fmtOkCheck]
  | succ n ih =>
    intro t
    cases t with
    | nil => simp [fmtAux, fmtOkCheck]
    | cons ch rest =>
      rw [fmtAux, fmtOkCheck]
      by_cases hch : ch = lbrace
      · simp only [if_pos hch]
        cases hdrop : rest.dropWhile (fun d => !(d = rbrace)) with
        | nil => simp
        | cons x tail =>
          by_cases hkey : (rest.takeWhile (fun d => !(d = rbrace)) = "company".data ∨
              rest.takeWhile (fun d => !(d = rbrace)) = "persona_goal".data ∨
              rest.takeWhile (fun d => !(d = rbrace)) = "goal_phrase".data)
          · have hval : (if rest.takeWhile (fun d => !(d = rbrace)) = "company".data then some c
                else if rest.takeWhile (fun d => !(d = rbrace)) = "persona_goal".data then some pg
                else if rest.takeWhile (fun d => !(d = rbrace)) = "goal_phrase".data then some gp
                else none).isSome := by
              rcases hkey with h | h | h <;> simp [h]
            cases hv : (if rest.takeWhile (fun d => !(d = rbrace)) = "company".data then some c
                else if rest.takeWhile (fun d => !(d = rbrace)) = "persona_goal".data then some pg
                else if rest.takeWhile (fun d => !(d = rbrace)) = "goal_phrase".data then some gp
                else none) with
            | none => rw [hv] at hval; simp at hval
            | some v =>
              have hkeyb : (rest.takeWhile (fun d => !(d = rbrace)) = "company".data ∨
                  rest.takeWhile (fun d => !(d = rbrace)) = "persona_goal".data ∨
                  rest.takeWhile (fun d => !(d = rbrace)) = "goal_phrase".data) := hkey
              have := ih tail
              cases hf : fmtAux c pg gp n tail with
              | none =>
                rw [hf] at this
                simp only [Option.isSome_none] at this
                rcases hkeyb with h | h | h <;>
                  simp [h, hf, ← this]
              | some out =>
                rw [hf] at this
                simp only [Option.isSome_some] at this
                rcases hkeyb with h | h | h <;>
                  simp [h, hf, ← this]
          · push_neg at hkey
            obtain ⟨h1, h2, h3⟩ := hkey
            simp [h1, h2, h3]
      · simp only [if_neg hch]
        have := ih rest
        cases hf : fmtAux c pg gp n rest with
        | none => rw [hf] at this; simp only [Option.isSome_none] at this; simp [← this]
        | some out => rw [hf] at this; simp only [Option.isSome_some] at this; simp [← this]

/-- Every placeholder template of the default section catalog formats
successfully. -/
theorem default_templates_ok :
    ∀ p ∈ DEFAULT_SECTIONS, ∀ kv ∈ p.2.placeholders,
      fmtOkCheck kv.2.data.length kv.2.data = true := by decide

/-- Every placeholder dict of the default catalog resolves, whatever the
substituted values. -/
theorem wirePlaceholderPairs_default_isSome (opp : Opportunity)
    {key : String} {defn : SectionDefinition}
    (hlk : List.lookup key DEFAULT_SECTIONS = some defn) :
    (wirePlaceholderPairs opp defn).isSome := by
  apply mapOpt_isSome_of
  intro kv hkv
  have hok := default_templates_ok _ (lookup_mem hlk) kv hkv
  have hft : (fmtTemplate opp.company (if opp.goal = "" then "成果" else opp.goal)
      (goalPhrase opp) kv.2).isSome := by
    unfold fmtTemplate
    cases hfa : fmtAux opp.company (if opp.goal = "" then "成果" else opp.goal)
        (goalPhrase opp) kv.2.data.length kv.2.data with
    | none =>
      have := fmtAux_isSome opp.company (if opp.goal = "" then "成果" else opp.goal)
        (goalPhrase opp) kv.2.data.length kv.2.data
      rw [hfa, hok] at this
      simp at this
    | some out => simp [hfa]
  cases hft2 : fmtTemplate opp.company (if opp.goal = "" then "成果" else opp.goal)
      (goalPhrase opp) kv.2 with
  | none => rw [hft2] at hft; simp at hft
  | some v => simp [hft2]

/-- The per-section wireframe body succeeds with the default catalog. -/
theorem wireSection_default_isSome (opp : Opportunity) (sec : SectionSpec) :
    (wireSection DEFAULT_GENERATOR opp sec).isSome := by
  unfold wireSection
  cases hlk : List.lookup (sectionKey sec) DEFAULT_GENERATOR.sections with
  | none => simp
  | some defn =>
    have h := wirePlaceholderPairs_default_isSome opp hlk
    cases hm : wirePlaceholderPairs opp defn with
    | none => rw [hm] at h; simp at h
    | some ph => simp [hm]

/-- The per-page wireframe body succeeds with the default catalog. -/
theorem wirePage_default_isSome (opp : Opportunity) (page : SitePageSpec) :
    (wirePage DEFAULT_GENERATOR opp page).isSome := by
  unfold wirePage
  have h := mapOpt_isSome_of (wireSection DEFAULT_GENERATOR opp) page.sections
    (fun sec _ => wireSection_default_isSome opp sec)
  cases hm : mapOpt (wireSection DEFAULT_GENERATOR opp) page.sections with
  | none => rw [hm] at h; simp at h
  | some ws => simp

/-- The wireframe builder succeeds with the default catalog on any
structure draft. -/
theorem buildWire_default_isSome (opp : Opportunity) (s : StructureDraft) :
    (buildWire DEFAULT_GENERATOR opp s).isSome := by
  unfold buildWire
  have h := mapOpt_isSome_of (wirePage DEFAULT_GENERATOR opp) s.site_map
    (fun page _ => wirePage_default_isSome opp page)
  cases hm : mapOpt (wirePage DEFAULT_GENERATOR opp) s.site_map with
  | none => rw [hm] at h; simp at h
  | some pages => simp

/-- The structure builder succeeds with the default page presets for every
site type: known types resolve directly, anything else falls back to the
LP preset. -/
theorem buildStructure_default_isSome (opp : Opportunity) (st : String)
    (w : Int) : (buildStructure DEFAULT_GENERATOR opp st w).isSome := by
  unfold buildStructure
  by_cases h1 : st = "LP"
  · subst h1
    simp [DEFAULT_GENERATOR, DEFAULT_PAGE_PRESETS, List.lookup]
  · by_cases h2 : st = "Corporate"
    · subst h2
      simp [DEFAULT_GENERATOR, DEFAULT_PAGE_PRESETS, List.lookup]
    · have hb1 : (st == "LP") = false := by
        rw [beq_eq_false_iff_ne]
        exact h1
      have hb2 : (st == "Corporate") = false := by
        rw [beq_eq_false_iff_ne]
        exact h2
      simp [DEFAULT_GENERATOR, DEFAULT_PAGE_PRESETS, List.lookup, hb1, hb2]

/-- Each design-item step succeeds with the default rate table. -/
theorem designItem_default_isSome (page : SitePageSpec) (sec : SectionSpec) :
    (designItem DEFAULT_GENERATOR page sec).isSome := by
  unfold designItem
  cases hlk : List.lookup (sectionKey sec) DEFAULT_GENERATOR.sections with
  | none => simp
  | some defn => simp [DEFAULT_GENERATOR, DEFAULT_RATES, List.lookup]

/-- The estimate builder succeeds with the default catalog on any structure
draft. -/
theorem buildEstimate_default_isSome (opp : Opportunity) (s : StructureDraft)
    (ctx : GenerationContext) :
    (buildEstimate DEFAULT_GENERATOR opp s ctx).isSome := by
  unfold buildEstimate
  have hIA : (List.lookup "IA" DEFAULT_GENERATOR.rates).isSome := by decide
  have hPM : (List.lookup "PM" DEFAULT_GENERATOR.rates).isSome := by decide
  have h := mapOpt_isSome_of (fun ps => designItem DEFAULT_GENERATOR ps.1 ps.2)
    (estimatePairs s) (fun a _ => designItem_default_isSome a.1 a.2)
  cases hia : List.lookup "IA" DEFAULT_GENERATOR.rates with
  | none => rw [hia] at hIA; simp at hIA
  | some iaRate =>
    cases hm : mapOpt (fun ps => designItem DEFAULT_GENERATOR ps.1 ps.2)
        (estimatePairs s) with
    | none => rw [hm] at h; simp at h
    | some opts =>
      cases hpm : List.lookup "PM" DEFAULT_GENERATOR.rates with
      | none => rw [hpm] at hPM; simp at hPM
      | some pmRate => simp [hia, hm, hpm]

/-- An option known to be some equals some of its getD value. -/
theorem eq_some_getD {α : Type} {o : Option α} (h : o.isSome) (j : α) :
    o = some (o.getD j) := by
  cases o with
  | none => simp at h
  | some a => simp

/-- The whole pipeline succeeds with the default catalog. -/
theorem generate_default_isSome (t w : Int) (opp : Opportunity) :
    (generate DEFAULT_GENERATOR t w opp).isSome := by
  unfold generate
  have hs := buildStructure_default_isSome opp (inferSiteType opp) w
  cases hst : buildStructure DEFAULT_GENERATOR opp (inferSiteType opp) w with
  | none => rw [hst] at hs; simp at hs
  | some s =>
    have hw := buildWire_default_isSome opp s
    cases hwi : buildWire DEFAULT_GENERATOR opp s with
    | none => rw [hwi] at hw; simp at hw
    | some wire =>
      have he := buildEstimate_default_isSome opp s
        { today := t, structureRef := some s }
      cases hes : buildEstimate DEFAULT_GENERATOR opp s
          { today := t, structureRef := some s } with
      | none => rw [hes] at he; simp at he
      | some e => simp [hst, hwi, hes]

/-- Inversion of a successful estimate build: the rate lookups succeeded,
the design loop succeeded, and the estimate is exactly the record the
builder assembles. -/
theorem buildEstimate_inv {g : ProposalGenerator} {opp : Opportunity}
    {s : StructureDraft} {ctx : GenerationContext} {e : EstimateDraft}
    (h : buildEstimate g opp s ctx = some e) :
    ∃ iaRate pmRate designOpts,
      List.lookup "IA" g.rates = some iaRate ∧
      List.lookup "PM" g.rates = some pmRate ∧
      mapOpt (fun ps => designItem g ps.1 ps.2) (estimatePairs s) = some designOpts ∧
      e = { line_items := iaLineItem s iaRate ::
              (designOpts.reduceOption ++
                [pmLineItem designOpts.reduceOption.length pmRate]),
            coefficients := g.coefficient_rules.filterMap (fun r => r.evaluate opp ctx),
            assumptions := estimateAssumptions g opp, currency := "JPY" } := by
  unfold buildEstimate at h
  cases hia : List.lookup "IA" g.rates with
  | none => rw [hia] at h; simp at h
  | some iaRate =>
    rw [hia] at h
    cases hm : mapOpt (fun ps => designItem g ps.1 ps.2) (estimatePairs s) with
    | none => rw [hm] at h; simp at h
    | some designOpts =>
      rw [hm] at h
      cases hpm : List.lookup "PM" g.rates with
      | none => rw [hpm] at h; simp at h
      | some pmRate =>
        rw [hpm] at h
        simp at h
        exact ⟨iaRate, pmRate, designOpts, rfl, rfl, rfl, h.symm⟩

/-- In a successful design loop, the skipped sections are exactly those
without a catalog definition: the kept items count the sections whose
key resolves. -/
theorem mapOpt_designItem_count (g : ProposalGenerator) :
    ∀ (l : List (SitePageSpec × SectionSpec)) (opts : List (Option EstimateLineItem)),
      mapOpt (fun ps => designItem g ps.1 ps.2) l = some opts →
      opts.reduceOption.length =
        l.countP (fun ps => (List.lookup (sectionKey ps.2) g.sections).isSome) := by
  intro l
  induction l with
  | nil =>
    intro opts h
    rw [mapOpt] at h
    simp at h
    subst h
    simp
  | cons a as ih =>
    intro opts h
    rw [mapOpt] at h
    cases hda : designItem g a.1 a.2 with
    | none => rw [hda] at h; simp at h
    | some ob =>
      cases hm : mapOpt (fun ps => designItem g ps.1 ps.2) as with
      | none => rw [hda, hm] at h; simp at h
      | some bs =>
        rw [hda, hm] at h
        simp at h
        subst h
        unfold designItem at hda
        cases hlk : List.lookup (sectionKey a.2) g.sections with
        | none =>
          rw [hlk] at hda
          simp at hda
          subst hda
          rw [List.countP_cons]
          simp [hlk, List.reduceOption_cons_of_none, ih bs hm]
        | some defn =>
          rw [hlk] at hda
          cases hr : List.lookup "Design" g.rates with
          | none => rw [hr] at hda; simp at hda
          | some rate =>
            rw [hr] at hda
            simp at hda
            subst hda
            rw [List.countP_cons]
            simp [hlk, List.reduceOption_cons_of_some, ih bs hm]

/-- Multiplying through a list of coefficients is multiplication by the
product of their multipliers. -/
theorem foldl_mul_multiplier (l : List EstimateCoefficient) (b : ℚ) :
    l.foldl (fun t c => t * c.multiplier) b =
      b * (l.map (fun c => c.multiplier)).prod := by
  induction' l with c cs ih generalizing b
  · simp
  · rw [List.foldl_cons, ih, List.map_cons, List.prod_cons]
    ring

/-- Rounding the rational four to one decimal gives four. -/
theorem round1_four : round1 (4 : ℚ) = 4 := by
  unfold round1 roundHalfEven
  norm_num

set_option maxRecDepth 4000

/-- C1: the claim says generate is deterministic in (opportunity, injected
today), all deadline arithmetic reading only the context's today.  The code
violates this: _derive_risks calls date.today() directly, so the
schedule-pressure risk follows the wall clock.  At the same opportunity
(deadline day 1000) and the same injected today (day 900), moving only the
wall clock from day 900 to day 980 changes the derived risks, and with them
the rendered summary. -/
theorem C1_wall_clock_breaks_determinism :
    (generate DEFAULT_GENERATOR 900 900 oppC1).map (fun b => b.structure_draft.risks) ≠
    (generate DEFAULT_GENERATOR 900 980 oppC1).map (fun b => b.structure_draft.risks) := by
  decide

/-- C2: for every valid opportunity — required id, company, title and goal
present, every optional field and tri-state asset flag arbitrary — generate
with the default catalog returns a draft bundle and never fails. -/
theorem C2_generate_total (opp : Opportunity) (ctxToday wallToday : Int) :
    ∃ b, generate DEFAULT_GENERATOR ctxToday wallToday opp = some b :=
  Option.isSome_iff_exists.mp (generate_default_isSome ctxToday wallToday opp)

/-- C3: a successfully built estimate has exactly 1 (the IA item, first)
plus the number of page/section pairs whose kind/variant key has a catalog
definition, plus 1 (the PM item, last) line items. -/
theorem C3_line_item_count {g : ProposalGenerator} {opp : Opportunity}
    {s : StructureDraft} {ctx : GenerationContext} {e : EstimateDraft}
    (h : buildEstimate g opp s ctx = some e) :
    e.line_items.length =
      1 + (estimatePairs s).countP
        (fun ps => (List.lookup (sectionKey ps.2) g.sections).isSome) + 1 ∧
    (∃ ia, e.line_items.head? = some ia ∧ ia.role = "IA") ∧
    (∃ pm, e.line_items.getLast? = some pm ∧ pm.role = "PM") := by
  obtain ⟨iaRate, pmRate, opts, hia, hpm, hm, he⟩ := buildEstimate_inv h
  subst he
  refine ⟨?_, ⟨iaLineItem s iaRate, rfl, rfl⟩,
    ⟨pmLineItem opts.reduceOption.length pmRate, ?_, rfl⟩⟩
  · have hc := mapOpt_designItem_count g _ _ hm
    simp [hc]
    omega
  · show (iaLineItem s iaRate ::
      (opts.reduceOption ++ [pmLineItem opts.reduceOption.length pmRate])).getLast? = _
    rw [show iaLineItem s iaRate ::
        (opts.reduceOption ++ [pmLineItem opts.reduceOption.length pmRate]) =
        (iaLineItem s iaRate :: opts.reduceOption) ++
          [pmLineItem opts.reduceOption.length pmRate] from by simp,
      List.getLast?_concat]

/-- C3 witness at the minimal opportunity and its default-generated
structure. -/
theorem C3_line_item_count_witness :
    buildEstimate DEFAULT_GENERATOR oppW structW ctxW = some estW ∧
    (estW.line_items.length =
      1 + (estimatePairs structW).countP
        (fun ps => (List.lookup (sectionKey ps.2) DEFAULT_GENERATOR.sections).isSome) + 1 ∧
    (∃ ia, estW.line_items.head? = some ia ∧ ia.role = "IA") ∧
    (∃ pm, estW.line_items.getLast? = some pm ∧ pm.role = "PM")) := by
  have h : buildEstimate DEFAULT_GENERATOR oppW structW ctxW = some estW := by
    unfold estW
    exact eq_some_getD (buildEstimate_default_isSome oppW structW ctxW) { line_items := [] }
  exact ⟨h, C3_line_item_count h⟩

/-- C4: the summary's running total — the base total multiplied
successively by each triggered coefficient's multiplier in catalog order —
equals the base total times the product of the multipliers, and any
reordering of the coefficients multiplies to the same value; the breakdown
the summary renders walks the estimate's coefficient list, which a
successful build produces by filtering the catalog rules in their catalog
order. -/
theorem C4_total_identity {g : ProposalGenerator} {opp : Opportunity}
    {s : StructureDraft} {ctx : GenerationContext} {e : EstimateDraft}
    (h : buildEstimate g opp s ctx = some e) :
    adjustedTotal e = baseTotal e * (e.coefficients.map (fun c => c.multiplier)).prod ∧
    (∀ l : List EstimateCoefficient, l.Perm e.coefficients →
      l.foldl (fun t c => t * c.multiplier) (baseTotal e) = adjustedTotal e) ∧
    e.coefficients = g.coefficient_rules.filterMap (fun r => r.evaluate opp ctx) := by
  refine ⟨foldl_mul_multiplier _ _, ?_, ?_⟩
  · intro l hperm
    rw [foldl_mul_multiplier, adjustedTotal, foldl_mul_multiplier]
    rw [List.Perm.prod_eq (hperm.map (fun c => c.multiplier))]
  · obtain ⟨iaRate, pmRate, opts, hia, hpm, hm, he⟩ := buildEstimate_inv h
    subst he
    rfl

/-- C4 witness at an opportunity firing the copy and CMS coefficients. -/
theorem C4_total_identity_witness :
    buildEstimate DEFAULT_GENERATOR oppC4 structW ctxW = some estC4 ∧
    adjustedTotal estC4 =
      baseTotal estC4 * (estC4.coefficients.map (fun c => c.multiplier)).prod ∧
    estC4.coefficients.reverse.foldl (fun t c => t * c.multiplier) (baseTotal estC4) =
      adjustedTotal estC4 ∧
    estC4.coefficients =
      DEFAULT_GENERATOR.coefficient_rules.filterMap (fun r => r.evaluate oppC4 ctxW) := by
  have h : buildEstimate DEFAULT_GENERATOR oppC4 structW ctxW = some estC4 := by
    unfold estC4
    exact eq_some_getD (buildEstimate_default_isSome oppC4 structW ctxW) { line_items := [] }
  exact ⟨h, (C4_total_identity h).1,
    (C4_total_identity h).2.1 _ (List.reverse_perm _),
    (C4_total_identity h).2.2⟩

/-- C5: the site-type classifier is total and deterministic, applies its
rules first-match-wins — landing-page marker in the title gives LP, then a
lead-generation signal in the goal gives LP, then a recruiting signal in
the goal gives Corporate — and defaults to LP, never returning any other
value. -/
theorem C5_site_type_policy (opp : Opportunity) :
    (inferSiteType opp = "LP" ∨ inferSiteType opp = "Corporate") ∧
    ((hasSub (lowerStr opp.title) "lp" || hasSub opp.title "ランディング") = true →
      inferSiteType opp = "LP") ∧
    ((hasSub (lowerStr opp.title) "lp" || hasSub opp.title "ランディング") = false →
      (hasSub (lowerStr opp.goal) "リード" || hasSub (lowerStr opp.goal) "lead") = true →
      inferSiteType opp = "LP") ∧
    ((hasSub (lowerStr opp.title) "lp" || hasSub opp.title "ランディング") = false →
      (hasSub (lowerStr opp.goal) "リード" || hasSub (lowerStr opp.goal) "lead") = false →
      hasSub (lowerStr opp.goal) "採用" = true →
      inferSiteType opp = "Corporate") ∧
    ((hasSub (lowerStr opp.title) "lp" || hasSub opp.title "ランディング") = false →
      (hasSub (lowerStr opp.goal) "リード" || hasSub (lowerStr opp.goal) "lead") = false →
      hasSub (lowerStr opp.goal) "採用" = false →
      inferSiteType opp = "LP") := by
  unfold inferSiteType
  refine ⟨?_, fun h1 => ?_, fun h1 h2 => ?_, fun h1 h2 h3 => ?_, fun h1 h2 h3 => ?_⟩
  · dsimp only
    split
    · exact Or.inl rfl
    · split
      · exact Or.inl rfl
      · split
        · exact Or.inr rfl
        · exact Or.inl rfl
  · simp [h1]
  · simp [h1, h2]
  · simp [h1, h2, h3]
  · simp [h1, h2, h3]

/-- C5 witness: the recruiting branch fires on a recruit-goal opportunity
with no earlier marker. -/
theorem C5_site_type_policy_witness : inferSiteType oppRecruit = "Corporate" :=
  (C5_site_type_policy oppRecruit).2.2.2.1 (by decide) (by decide) (by decide)

/-- The three default coefficient rules contribute independently, in
catalog order. -/
theorem default_rules_filterMap (opp : Opportunity) (ctx : GenerationContext) :
    DEFAULT_COEFFICIENT_RULES.filterMap (fun r => r.evaluate opp ctx) =
      (if (match opp.deadline with
           | some d => decide (d - ctx.today < 45)
           | none => false) = true
       then [{ name := "短納期", multiplier := 1.15,
               reason := some "納期が45日未満" }] else []) ++
      (if opp.assets.copy = some false
       then [{ name := "素材未提供（コピー）", multiplier := 1.2,
               reason := some "コピー素材が未支給" }] else []) ++
      (if (match opp.notes with
           | some n => decide (n ≠ "") && hasSub (upperStr n) "CMS"
           | none => false) = true
       then [{ name := "CMS要件含む", multiplier := 1.1,
               reason := some "メモにCMS化要望" }] else []) := by
  simp only [DEFAULT_COEFFICIENT_RULES, List.filterMap_cons, List.filterMap_nil,
    CoefficientRule.evaluate]
  split <;> split <;> split <;> simp_all

/-- C6: with the default rules, the copy-unavailable coefficient (at its
multiplier 1.2) is triggered exactly when the copy asset flag is the
explicit false — not when it is unknown or true. -/
theorem C6_copy_coefficient {opp : Opportunity} {s : StructureDraft}
    {ctx : GenerationContext} {e : EstimateDraft}
    (h : buildEstimate DEFAULT_GENERATOR opp s ctx = some e) :
    (∃ c, c ∈ e.coefficients ∧ c.name = "素材未提供（コピー）" ∧ c.multiplier = 1.2) ↔
      opp.assets.copy = some false := by
  obtain ⟨iaRate, pmRate, opts, hia, hpm, hm, he⟩ := buildEstimate_inv h
  subst he
  show (∃ c, c ∈ DEFAULT_GENERATOR.coefficient_rules.filterMap
      (fun r => r.evaluate opp ctx) ∧ _ ∧ _) ↔ _
  rw [show DEFAULT_GENERATOR.coefficient_rules = DEFAULT_COEFFICIENT_RULES from rfl,
    default_rules_filterMap]
  by_cases hcopy : opp.assets.copy = some false
  · constructor
    · intro _
      exact hcopy
    · intro _
      refine ⟨{ name := "素材未提供（コピー）", multiplier := 1.2,
                reason := some "コピー素材が未支給" }, ?_, rfl, rfl⟩
      apply List.mem_append_left
      apply List.mem_append_right
      rw [if_pos hcopy]
      exact List.mem_singleton_self _
  · constructor
    · rintro ⟨c, hc, hname, hmul⟩
      rw [if_neg hcopy] at hc
      by_cases h1 : ((match opp.deadline with
          | some d => decide (d - ctx.today < 45)
          | none => false) = true) <;>
        by_cases h3 : ((match opp.notes with
          | some n => decide (n ≠ "") && hasSub (upperStr n) "CMS"
          | none => false) = true) <;>
        simp [h1, h3] at hc
      all_goals first
        | (rcases hc with rfl | ⟨-, rfl⟩ <;> exact absurd hname (by decide))
        | (obtain ⟨-, rfl⟩ := hc
           exact absurd hname (by decide))
    · intro hco
      exact absurd hco hcopy

/-- C6 witness: at an opportunity with explicitly unavailable copy assets,
the coefficient is present. -/
theorem C6_copy_coefficient_witness :
    buildEstimate DEFAULT_GENERATOR oppC4 structW ctxW = some estC4 ∧
    (∃ c, c ∈ estC4.coefficients ∧ c.name = "素材未提供（コピー）" ∧
      c.multiplier = 1.2) := by
  have h : buildEstimate DEFAULT_GENERATOR oppC4 structW ctxW = some estC4 := by
    unfold estC4
    exact eq_some_getD (buildEstimate_default_isSome oppC4 structW ctxW) { line_items := [] }
  exact ⟨h, (C6_copy_coefficient h).mpr (by decide)⟩

/-- C7: the uncertains list holds exactly one item per holding condition —
missing deadline, explicitly unavailable copy assets, explicitly
unavailable photo assets, empty must-have list — in that order and no
others; unknown asset flags trigger nothing, and an opportunity with no
deadline, all assets unknown and no must-haves gets exactly two items. -/
theorem C7_uncertains (opp : Opportunity) :
    deriveUncertains opp =
      (if opp.deadline = none then ["納期未確定 → ヒアリング要"] else []) ++
      (if opp.assets.copy = some false then ["コピー提供タイミングの確認"] else []) ++
      (if opp.assets.photo = some false then ["写真素材の調達方法"] else []) ++
      (if opp.must_have = [] then ["必須機能の確定"] else []) ∧
    (opp.deadline = none → opp.assets.copy = none → opp.assets.photo = none →
      opp.must_have = [] → (deriveUncertains opp).length = 2) := by
  constructor
  · unfold deriveUncertains
    dsimp only
    split <;> split <;> split <;> split <;> simp
  · intro h1 h2 h3 h4
    unfold deriveUncertains
    simp [h1, h2, h3, h4]

/-- C7 witness: the minimal opportunity has no deadline, all-unknown assets
and no must-haves, and derives exactly two uncertains. -/
theorem C7_uncertains_witness : (deriveUncertains oppW).length = 2 :=
  (C7_uncertains oppW).2 rfl rfl rfl rfl

/-- C8: a section whose kind/variant key is absent from the catalog is kept
unchanged by the structure builder (no generated copy) and contributes no
design line item to the estimate, raising no error in either place. -/
theorem C8_unknown_section_degrades (g : ProposalGenerator) (opp : Opportunity)
    (page : SitePageSpec) (sec : SectionSpec)
    (h : List.lookup (sectionKey sec) g.sections = none) :
    resolveSection g opp sec = sec ∧ designItem g page sec = some none := by
  unfold resolveSection designItem
  rw [h]
  exact ⟨rfl, rfl⟩

/-- C8 witness at a kind/variant key missing from the default catalog. -/
theorem C8_unknown_section_degrades_witness :
    resolveSection DEFAULT_GENERATOR oppW secUnknown = secUnknown ∧
    designItem DEFAULT_GENERATOR pageW secUnknown = some none :=
  C8_unknown_section_degrades DEFAULT_GENERATOR oppW pageW secUnknown (by decide)

/-- C9: the first line item of a successful estimate is the IA item; its
hours are four when the site map is empty, and otherwise one-point-five
hours per section of the first page floored at four, rounded to one
decimal. -/
theorem C9_ia_line_item {g : ProposalGenerator} {opp : Opportunity}
    {s : StructureDraft} {ctx : GenerationContext} {e : EstimateDraft}
    (h : buildEstimate g opp s ctx = some e) :
    ∃ ia, e.line_items.head? = some ia ∧ ia.role = "IA" ∧
      (s.site_map = [] → ia.hours = 4) ∧
      (∀ p rest, s.site_map = p :: rest →
        ia.hours = round1 (max 4.0 (1.5 * (p.sections.length : ℚ)))) := by
  obtain ⟨iaRate, pmRate, opts, hia, hpm, hm, he⟩ := buildEstimate_inv h
  subst he
  refine ⟨iaLineItem s iaRate, rfl, rfl, ?_, ?_⟩
  · intro hnil
    show round1 (iaHours s) = 4
    unfold iaHours
    rw [hnil]
    norm_num [round1_four]
  · intro p rest hcons
    show round1 (iaHours s) = _
    unfold iaHours
    rw [hcons]

/-- C9 witness at the default-generated structure of the minimal
opportunity. -/
theorem C9_ia_line_item_witness :
    ∃ ia, estW.line_items.head? = some ia ∧ ia.role = "IA" ∧
      (structW.site_map = [] → ia.hours = 4) ∧
      (∀ p rest, structW.site_map = p :: rest →
        ia.hours = round1 (max 4.0 (1.5 * (p.sections.length : ℚ)))) := by
  have h : buildEstimate DEFAULT_GENERATOR oppW structW ctxW = some estW := by
    unfold estW
    exact eq_some_getD (buildEstimate_default_isSome oppW structW ctxW) { line_items := [] }
  exact C9_ia_line_item h

/-- C10: any opportunity whose lowercased title contains the two characters
lp anywhere — also inside an unrelated word — classifies as LP regardless
of the goal text. -/
theorem C10_lp_substring (opp : Opportunity)
    (h : hasSub (lowerStr opp.title) "lp" = true) :
    inferSiteType opp = "LP" := by
  unfold inferSiteType
  simp [h]

/-- C10 witness: the title Alpine contains lp only inside the word, the
goal signals recruiting, and the classifier still answers LP. -/
theorem C10_lp_substring_witness : inferSiteType oppAlpine = "LP" :=
  C10_lp_substring oppAlpine (by decide)
